import Mathlib

/-!
Shallow embedding of the weather-app client-side service workers.

The repository ships two service-worker sources:
* `static/js/sw.js` — version `v2`, with a precache, a runtime cache and a
  TTL-stamped API cache (namespace `SWv2` below);
* an older worker (version `v1`) with a static cache, a runtime cache bounded
  to 50 entries, and a cache-first strategy for static assets
  (namespace `SWv1` below).

Caches (the browser Cache API) are modelled as association lists in insertion
order (oldest first); `put` replaces an existing entry for the same request in
place, otherwise appends.  The network is passed in explicitly as an
`Except Unit Response` (a throwing `fetch`), and the ambient clock as an `Int`
(`Date.now()`).
-/

/-- A browser `Response`: status, statusText, headers and body. -/
structure Response where
  status : Nat
  statusText : String
  headers : List (String × String)
  body : String
deriving DecidableEq

/-- `Response.ok`: status in the range 200..299. -/
def respOk (r : Response) : Bool := 200 ≤ r.status && r.status < 300

/-- Lower-case every character of a string (executable model of
JavaScript/Python lower-casing, used for case-insensitive header names and
key normalization). -/
def lowerAscii (s : String) : String := String.mk (s.data.map Char.toLower)

/-- Strip leading and trailing whitespace (executable model of `trim`). -/
def trimAscii (s : String) : String :=
  String.mk (((s.data.dropWhile Char.isWhitespace).reverse.dropWhile
      Char.isWhitespace).reverse)

/-- Parse a non-empty all-digit character list as a natural number. -/
def parseDigits (l : List Char) : Option Nat :=
  match l with
  | [] => none
  | _ =>
    if l.all Char.isDigit then
      some (l.foldl (fun n c => n * 10 + (c.toNat - 48)) 0)
    else none

/-- `Headers.get`: first entry with a case-insensitively matching name. -/
def headerGet (hs : List (String × String)) (k : String) : Option String :=
  match hs with
  | [] => none
  | p :: rest => if lowerAscii p.1 == lowerAscii k then some p.2 else headerGet rest k

/-- `Headers.set`: replace the value of a matching entry in place, else append. -/
def headerSet (hs : List (String × String)) (k v : String) : List (String × String) :=
  match hs with
  | [] => [(k, v)]
  | p :: rest =>
    if lowerAscii p.1 == lowerAscii k then (p.1, v) :: rest else p :: headerSet rest k v

/-- One named cache store: request URL → response, in insertion order. -/
def CacheStore : Type := List (String × Response)

instance : DecidableEq CacheStore := by
  unfold CacheStore
  infer_instance

/-- `cache.match(req)`: the entry stored for `req`, if any. -/
def cacheMatch (c : CacheStore) (req : String) : Option Response :=
  match c with
  | [] => none
  | p :: rest => if p.1 == req then some p.2 else cacheMatch rest req

/-- `cache.put(req, resp)`: replace an existing entry in place, else append. -/
def cachePut (c : CacheStore) (req : String) (r : Response) : CacheStore :=
  match c with
  | [] => [(req, r)]
  | p :: rest => if p.1 == req then (req, r) :: rest else p :: cachePut rest req r

/-- The whole `caches` storage: named stores in creation order. -/
def CacheStorage : Type := List (String × CacheStore)

instance : DecidableEq CacheStorage := by
  unfold CacheStorage
  infer_instance

/-- Look a store up by name (`caches.open` on an existing name). -/
def storeLookup (ss : CacheStorage) (name : String) : Option CacheStore :=
  match ss with
  | [] => none
  | p :: rest => if p.1 == name then some p.2 else storeLookup rest name

/-- `caches.open(name)` followed by `cache.put(req, r)`: update the named
store, creating it when absent. -/
def storagePutIn (ss : CacheStorage) (name req : String) (r : Response) : CacheStorage :=
  match ss with
  | [] => [(name, cachePut [] req r)]
  | p :: rest =>
    if p.1 == name then (p.1, cachePut p.2 req r) :: rest
    else p :: storagePutIn rest name req r

/-- `caches.match(req)`: search every store in creation order. -/
def globalMatch (ss : CacheStorage) (req : String) : Option Response :=
  match ss with
  | [] => none
  | p :: rest =>
    match cacheMatch p.2 req with
    | some r => some r
    | none => globalMatch rest req

/-- JavaScript `Number(s)` restricted to the decimal-integer strings this code
stores: the empty (or all-whitespace) string is `0`, a decimal integer parses,
anything else is NaN (`none`). -/
def jsNumber (s : String) : Option Int :=
  match (trimAscii s).data with
  | [] => some 0
  | '-' :: rest => (parseDigits rest).map (fun n => -(n : Int))
  | l => (parseDigits l).map (fun n => (n : Int))

/-- Fetch every URL of a list; the first rejection rejects the whole batch. -/
def fetchAll (net : String → Except Unit Response) :
    List String → Except Unit (List (String × Response))
  | [] => .ok []
  | u :: us =>
    match net u with
    | .error e => .error e
    | .ok r =>
      match fetchAll net us with
      | .error e => .error e
      | .ok rs => .ok ((u, r) :: rs)

/-- `cache.addAll(urls)`: atomic — all URLs are fetched and stored, or the
operation rejects and nothing is stored. -/
def addAll (c : CacheStore) (urls : List String) (net : String → Except Unit Response) :
    Except Unit CacheStore :=
  match fetchAll net urls with
  | .error e => .error e
  | .ok rs => .ok (rs.foldl (fun acc p => cachePut acc p.1 p.2) c)

namespace SWv2

/-- `static/js/sw.js` line 2. -/
def CACHE_VERSION : String := "v2"

/-- Current precache store name. -/
def PRECACHE : String := "precache-" ++ CACHE_VERSION

/-- Current runtime store name. -/
def RUNTIME : String := "runtime-" ++ CACHE_VERSION

/-- Current API cache store name. -/
def API_CACHE : String := "api-cache-" ++ CACHE_VERSION

/-- 5 minutes in ms. -/
def API_CACHE_TTL : Int := 300000

/-- The fixed precache asset list. -/
def PRECACHE_URLS : List String :=
  ["/", "/offline", "/static/css/styles.css", "/static/js/main.js", "/static/manifest.json"]

/-- The v2 install listener: `caches.open(PRECACHE).then(cache =>
cache.addAll(PRECACHE_URLS))`.  There is no `.catch`, so a rejected `addAll`
rejects `event.waitUntil` and installation fails. -/
def installHandler (pre : CacheStore) (net : String → Except Unit Response) :
    Except Unit CacheStore :=
  addAll pre PRECACHE_URLS net

/-- `[PRECACHE, RUNTIME, API_CACHE].includes(k)`. -/
def keepCurrent (k : String) : Bool :=
  k == PRECACHE || k == RUNTIME || k == API_CACHE

/-- The v2 activate listener: delete every store whose name is not a current
identifier, then `self.clients.claim()` (the `Bool` component). -/
def activateHandler (ss : CacheStorage) : CacheStorage × Bool :=
  (ss.filter (fun p => keepCurrent p.1), true)

/-- The synthesized offline API response: `JSON.stringify` of the error
object, `Content-Type: application/json`, status 503 (constructor default
statusText is empty). -/
def offlineApiResponse : Response :=
  { status := 503
  , statusText := ""
  , headers := [("Content-Type", "application/json")]
  , body := "\x7b\"error\":\"Network unavailable and no cached data\"\x7d" }

/-- `cacheApiResponse`: rebuild the response with an added `sw-cache-time`
header holding `Date.now()` and put it in the API cache; body, status and
statusText are carried over unchanged. -/
def cacheApiResponse (now : Int) (req : String) (resp : Response) (api : CacheStore) :
    CacheStore :=
  let newResp : Response :=
    { status := resp.status
    , statusText := resp.statusText
    , headers := headerSet resp.headers "sw-cache-time" (toString now)
    , body := resp.body }
  cachePut api req newResp

/-- The v2 fetch handler, API branch (`url.pathname.startsWith('/api/')`).
`net` is the outcome of `fetch(req)`; `writeFails` says whether the awaited
`cacheApiResponse` call rejects (its exception is caught and ignored).
Returns the response handed to the page and the resulting API cache. -/
def apiHandler (now : Int) (api : CacheStore) (req : String)
    (net : Except Unit Response) (writeFails : Bool) : Response × CacheStore :=
  match net with
  | .ok networkResponse =>
    if respOk networkResponse then
      if writeFails then (networkResponse, api)
      else (networkResponse, cacheApiResponse now req networkResponse api)
    else (networkResponse, api)
  | .error _ =>
    match cacheMatch api req with
    | some cached =>
      let cachedTime : Option Int :=
        match headerGet cached.headers "sw-cache-time" with
        | some s => jsNumber s
        | none => some 0
      match cachedTime with
      | some t =>
        if now - t ≤ API_CACHE_TTL then (cached, api) else (offlineApiResponse, api)
      | none => (offlineApiResponse, api)
    | none => (offlineApiResponse, api)

/-- The v2 fetch handler, navigation branch: network-first; on success the
response is stored in the runtime cache; on failure fall back to the precache
entry for the request, else `/`, else `/offline` (possibly `undefined`).
Returns the (optional) response and the resulting runtime cache. -/
def navHandler (runtime precache : CacheStore) (req : String)
    (net : Except Unit Response) : Option Response × CacheStore :=
  match net with
  | .ok networkResp => (some networkResp, cachePut runtime req networkResp)
  | .error _ =>
    match cacheMatch precache req with
    | some c => (some c, runtime)
    | none =>
      match cacheMatch precache "/" with
      | some c => (some c, runtime)
      | none => (cacheMatch precache "/offline", runtime)

/-- The v2 fetch handler, static-asset branch: network-first; an `ok` success
is stored in the runtime cache; on network failure return the matching runtime
entry if present, else rethrow the error. -/
def staticHandler (runtime : CacheStore) (req : String)
    (net : Except Unit Response) : Except Unit Response × CacheStore :=
  match net with
  | .ok resp =>
    (.ok resp, if respOk resp then cachePut runtime req resp else runtime)
  | .error e =>
    match cacheMatch runtime req with
    | some cached => (.ok cached, runtime)
    | none => (.error e, runtime)

end SWv2

namespace SWv1

/-- The v1 worker's version string. -/
def CACHE_VERSION : String := "v1"

/-- The v1 static (precache) store name. -/
def STATIC_CACHE_NAME : String := "weather-app-static-" ++ CACHE_VERSION

/-- The v1 runtime store name. -/
def RUNTIME_CACHE_NAME : String := "weather-app-runtime-" ++ CACHE_VERSION

/-- The v1 offline page URL (only used by its navigation branch). -/
def OFFLINE_PAGE : String := "/static/_offline.html"

/-- The v1 fixed precache asset list. -/
def STATIC_ASSETS : List String :=
  [ "/"
  , "/static/css/styles.css"
  , "/static/js/main.js"
  , "/static/manifest.json"
  , "https://cdn.jsdelivr.net/npm/bootstrap@5.3.0/dist/css/bootstrap.min.css"
  , "https://cdn.jsdelivr.net/npm/bootstrap@5.3.0/dist/js/bootstrap.bundle.min.js" ]

/-- `RUNTIME_CACHE_CONFIG.maxEntries`. -/
def maxEntries : Nat := 50

/-- `RUNTIME_CACHE_CONFIG.maxAgeSeconds` (declared in the source but never
consulted by any read or write path). -/
def maxAgeSeconds : Nat := 300

/-- The v1 install listener: `cache.addAll(STATIC_ASSETS).catch(err => ...)`.
The `.catch` swallows the rejection, so installation always completes; since
`addAll` is atomic, a caught failure leaves the store as it was. -/
def installHandler (pre : CacheStore) (net : String → Except Unit Response) :
    Except Unit CacheStore :=
  match addAll pre STATIC_ASSETS net with
  | .ok c => .ok c
  | .error _ => .ok pre

/-- `cleanupRuntimeCache`: when the key count exceeds `maxEntries`, delete the
first (oldest) `length - maxEntries` keys. -/
def cleanupRuntimeCache (c : CacheStore) : CacheStore :=
  if c.length > maxEntries then c.drop (c.length - maxEntries) else c

/-- The v1 synthesized offline API response. -/
def offlineResponse : Response :=
  { status := 503
  , statusText := ""
  , headers := [("Content-Type", "application/json")]
  , body := "\x7b\"error\":\"Network unavailable and no cached data found. Please check your connection.\"\x7d" }

/-- The SVG placeholder returned for failed image requests (constructor
defaults: status 200, empty statusText). -/
def svgFallbackResponse : Response :=
  { status := 200
  , statusText := ""
  , headers := [("Content-Type", "image/svg+xml")]
  , body := "<svg xmlns=\"http://www.w3.org/2000/svg\" width=\"80\" height=\"80\"><rect fill=\"#e2e8f0\" width=\"80\" height=\"80\"/></svg>" }

/-- `networkFirstStrategy` (v1, API requests): try the network; a status-200
response is put in the runtime cache and `cleanupRuntimeCache` is awaited; on
network failure return the cached entry if any, else a synthesized 503. -/
def networkFirstStrategy (runtime : CacheStore) (req : String)
    (net : Except Unit Response) : Response × CacheStore :=
  match net with
  | .ok networkResponse =>
    if networkResponse.status == 200 then
      (networkResponse, cleanupRuntimeCache (cachePut runtime req networkResponse))
    else (networkResponse, runtime)
  | .error _ =>
    match cacheMatch runtime req with
    | some cached => (cached, runtime)
    | none => (offlineResponse, runtime)

/-- `cacheFirstStrategy` (v1, static assets): `caches.match(request)` first;
on a miss fetch the network, storing a status-200 response in the static
cache; if the fetch throws, return an SVG placeholder for images and fall off
the end (`undefined`, i.e. `.ok none`) otherwise — the error is never
rethrown. `dest` is `request.destination`. -/
def cacheFirstStrategy (ss : CacheStorage) (req dest : String)
    (net : Except Unit Response) : Except Unit (Option Response) × CacheStorage :=
  match globalMatch ss req with
  | some cached => (.ok (some cached), ss)
  | none =>
    match net with
    | .ok networkResponse =>
      ( .ok (some networkResponse)
      , if networkResponse.status == 200 then
          storagePutIn ss STATIC_CACHE_NAME req networkResponse
        else ss )
    | .error _ =>
      if dest == "image" then (.ok (some svgFallbackResponse), ss)
      else (.ok none, ss)

end SWv1

namespace ServerCache

/-- Lower-case every character of a string (an executable model of
`str.lower()`). -/
def lowerStr (s : String) : String := lowerAscii s

/-- Strip leading and trailing whitespace (an executable model of
`str.strip()`). -/
def trimStr (s : String) : String := trimAscii s

/-- Modelled from the spec: the server-side key normalization
(`normalize(city, state, country)`) lives in the Flask application
(`app.py`), which is not among the repository sources here.  Per the spec it
trims whitespace, lower-cases each component and joins the components with a
fixed delimiter. -/
def normalize (city state country : String) : String :=
  lowerStr (trimStr city) ++ "," ++ lowerStr (trimStr state) ++ ","
    ++ lowerStr (trimStr country)

end ServerCache

/-! Helper lemmas about the cache model. -/

/-- Looking up after a `put`: the written request now maps to the written
response; other requests are unaffected. -/
lemma cacheMatch_cachePut (c : CacheStore) (a u : String) (r : Response) :
    cacheMatch (cachePut c a r) u = if u = a then some r else cacheMatch c u := by
  induction c with
  | nil =>
    by_cases h : u = a
    · simp [cachePut, cacheMatch, h]
    · simp [cachePut, cacheMatch, h, Ne.symm h]
  | cons p rest ih =>
    by_cases hpa : p.1 = a
    · by_cases hua : u = a
      · simp [cachePut, cacheMatch, hpa, hua]
      · simp [cachePut, cacheMatch, hpa, hua, Ne.symm hua]
    · by_cases hua : u = a
      · subst hua
        simp [cachePut, cacheMatch, hpa, ih, Ne.symm hpa]
      · by_cases hpu : p.1 = u
        · simp [cachePut, cacheMatch, hpa, hua, hpu]
        · simp [cachePut, cacheMatch, hpa, hua, hpu, ih]

/-- Setting a header makes it retrievable. -/
lemma headerGet_headerSet_self (hs : List (String × String)) (k v : String) :
    headerGet (headerSet hs k v) k = some v := by
  induction hs with
  | nil => simp [headerSet, headerGet]
  | cons p rest ih =>
    by_cases h : lowerAscii p.1 = lowerAscii k
    · simp [headerSet, headerGet, h]
    · simp [headerSet, headerGet, h, ih]

/-- Looking a store up in a name-filtered storage. -/
lemma storeLookup_filter (f : String → Bool) (ss : CacheStorage) (n : String) :
    storeLookup (ss.filter (fun p => f p.1)) n
      = if f n then storeLookup ss n else none := by
  induction ss with
  | nil => simp [storeLookup]
  | cons p rest ih =>
    by_cases hpn : p.1 = n
    · by_cases hf : f n
      · simp [List.filter, storeLookup, hpn, hf, ih]
      · simp [List.filter, storeLookup, hpn, hf, ih]
    · by_cases hf : f p.1
      · simp [List.filter, storeLookup, hpn, hf, ih]
      · simp [List.filter, storeLookup, hpn, hf, ih]

/-- A successful `fetchAll` fetched exactly the requested URLs, in order. -/
lemma fetchAll_ok_keys (net : String → Except Unit Response) :
    ∀ (urls : List String) (rs : List (String × Response)),
      fetchAll net urls = .ok rs → rs.map Prod.fst = urls := by
  intro urls
  induction urls with
  | nil =>
    intro rs h
    simp [fetchAll] at h
    simp [← h]
  | cons u us ih =>
    intro rs h
    unfold fetchAll at h
    cases hn : net u with
    | error e => rw [hn] at h; exact absurd h (by simp)
    | ok r =>
      rw [hn] at h
      cases hf : fetchAll net us with
      | error e => rw [hf] at h; exact absurd h (by simp)
      | ok rs' =>
        rw [hf] at h
        simp at h
        subst h
        simp [ih rs' hf]

/-- If every fetch succeeds, `fetchAll` succeeds. -/
lemma fetchAll_ok_of_all_ok (net : String → Except Unit Response) :
    ∀ (urls : List String), (∀ a ∈ urls, ∃ r, net a = .ok r) →
      ∃ rs, fetchAll net urls = .ok rs := by
  intro urls
  induction urls with
  | nil => intro _; exact ⟨[], rfl⟩
  | cons u us ih =>
    intro h
    obtain ⟨r, hr⟩ := h u (by simp)
    obtain ⟨rs, hrs⟩ := ih (fun a ha => h a (by simp [ha]))
    exact ⟨(u, r) :: rs, by unfold fetchAll; rw [hr, hrs]⟩

/-- After folding a batch of puts, every written key (and every key already
present) has an entry. -/
lemma cacheMatch_foldl_put_isSome (rs : List (String × Response)) :
    ∀ (c : CacheStore) (u : String),
      (u ∈ rs.map Prod.fst ∨ (cacheMatch c u).isSome = true) →
      (cacheMatch (rs.foldl (fun acc p => cachePut acc p.1 p.2) c) u).isSome = true := by
  induction rs with
  | nil =>
    intro c u h
    rcases h with h | h
    · simp at h
    · simpa using h
  | cons p rest ih =>
    intro c u h
    simp only [List.foldl_cons]
    apply ih
    by_cases hup : u = p.1
    · right; simp [cacheMatch_cachePut, hup]
    · rcases h with h | h
      · simp at h
        rcases h with h | h
        · exact absurd h hup
        · left; simpa using h
      · right; simpa [cacheMatch_cachePut, hup] using h

/-- A successful `addAll` leaves an entry for every requested URL. -/
lemma addAll_ok_isSome (c : CacheStore) (urls : List String)
    (net : String → Except Unit Response) (c' : CacheStore)
    (h : addAll c urls net = .ok c') :
    ∀ u ∈ urls, (cacheMatch c' u).isSome = true := by
  intro u hu
  unfold addAll at h
  cases hf : fetchAll net urls with
  | error e => rw [hf] at h; exact absurd h (by simp)
  | ok rs =>
    rw [hf] at h
    simp at h
    subst h
    exact cacheMatch_foldl_put_isSome rs c u (Or.inl (by rw [fetchAll_ok_keys net urls rs hf]; exact hu))

/-- `cleanupRuntimeCache` is exactly "drop the oldest entries beyond the
bound" (dropping zero entries when already within the bound). -/
lemma cleanupRuntimeCache_eq_drop (c : CacheStore) :
    SWv1.cleanupRuntimeCache c = c.drop (c.length - SWv1.maxEntries) := by
  unfold SWv1.cleanupRuntimeCache
  by_cases h : c.length > SWv1.maxEntries
  · simp [h]
  · have : c.length - SWv1.maxEntries = 0 := by omega
    simp [h, this]

/-- `cleanupRuntimeCache` always leaves at most `maxEntries` entries. -/
lemma cleanupRuntimeCache_length_le (c : CacheStore) :
    (SWv1.cleanupRuntimeCache c).length ≤ SWv1.maxEntries := by
  rw [cleanupRuntimeCache_eq_drop]
  have hd := List.length_drop (c.length - SWv1.maxEntries) c
  -- CacheStore unfolds to a list of pairs
  omega

/-! Concrete demonstration values used by witnesses and counterexamples. -/

/-- A concrete successful static response. -/
def demoRespA : Response :=
  { status := 200, statusText := "OK"
  , headers := [("Content-Type", "text/css")], body := "body-a" }

/-- A second, different successful response. -/
def demoRespB : Response :=
  { status := 200, statusText := "OK"
  , headers := [("Content-Type", "text/css")], body := "body-b" }

/-- A concrete successful API response. -/
def demoApiResp : Response :=
  { status := 200, statusText := "OK"
  , headers := [("Content-Type", "application/json")]
  , body := "\x7b\"temp\":1\x7d" }

/-! Claim theorems. -/

/-- C8: for every pair of location queries whose components differ only in
letter case or leading/trailing whitespace (formalized: trimming and
lower-casing each component gives the same string), the key-normalization
function produces identical cache keys. -/
theorem c8_normalize_invariant (c1 s1 k1 c2 s2 k2 : String)
    (hc : ServerCache.lowerStr (ServerCache.trimStr c1)
        = ServerCache.lowerStr (ServerCache.trimStr c2))
    (hst : ServerCache.lowerStr (ServerCache.trimStr s1)
        = ServerCache.lowerStr (ServerCache.trimStr s2))
    (hk : ServerCache.lowerStr (ServerCache.trimStr k1)
        = ServerCache.lowerStr (ServerCache.trimStr k2)) :
    ServerCache.normalize c1 s1 k1 = ServerCache.normalize c2 s2 k2 := by
  simp [ServerCache.normalize, hc, hst, hk]

/-- Witness for C8 at a concrete pair of equivalent queries. -/
theorem c8_normalize_invariant_witness :
    ServerCache.normalize "  London " "NY" "gb" = ServerCache.normalize "LONDON" " ny  " " GB" :=
  c8_normalize_invariant "  London " "NY" "gb" "LONDON" " ny  " " GB"
    (by decide) (by decide) (by decide)

/-- C9: in the v2 API branch, when the network response is ok but the cache
write (`cacheApiResponse`) rejects, the exception is caught and ignored: the
caller still receives the successful network response (and the API cache is
left as it was). -/
theorem c9_api_cache_write_error_ignored (now : Int) (api : CacheStore)
    (req : String) (resp : Response) (h : respOk resp = true) :
    (SWv2.apiHandler now api req (.ok resp) true).1 = resp
    ∧ (SWv2.apiHandler now api req (.ok resp) true).2 = api := by
  simp [SWv2.apiHandler, h]

/-- Witness for C9 at a concrete ok response. -/
theorem c9_api_cache_write_error_ignored_witness :
    (SWv2.apiHandler 1000 [] "/api/weather" (.ok demoApiResp) true).1 = demoApiResp :=
  (c9_api_cache_write_error_ignored 1000 [] "/api/weather" demoApiResp (by decide)).1

/-- C10: in the v1 worker's `cacheFirstStrategy`, when no cache matches, the
network fetch throws, and the request destination is not `image`, the function
returns `undefined` (`.ok none`): no response and no rethrown error, and the
cache storage is untouched. -/
theorem c10_v1_cache_first_undefined (ss : CacheStorage) (req dest : String)
    (hmiss : globalMatch ss req = none) (himg : dest ≠ "image") :
    SWv1.cacheFirstStrategy ss req dest (.error ()) = (.ok none, ss) := by
  simp [SWv1.cacheFirstStrategy, hmiss, himg]

/-- Witness for C10 at a concrete empty storage and a script request. -/
theorem c10_v1_cache_first_undefined_witness :
    SWv1.cacheFirstStrategy [] "/static/js/main.js" "script" (.error ()) = (.ok none, []) :=
  c10_v1_cache_first_undefined [] "/static/js/main.js" "script" rfl (by decide)

/-- C4: in the v2 API branch with a reachable cache write, an ok network
response is both returned to the caller and stored in the API cache with its
status, statusText and body preserved and an `sw-cache-time` header holding the
caching time; a non-ok network response is returned without any cache write. -/
theorem c4_api_success_cache (now : Int) (api : CacheStore) (req : String)
    (resp : Response) :
    (SWv2.apiHandler now api req (.ok resp) false).1 = resp
    ∧ (respOk resp = true →
        ∃ stored : Response,
          cacheMatch (SWv2.apiHandler now api req (.ok resp) false).2 req = some stored
          ∧ stored.status = resp.status
          ∧ stored.statusText = resp.statusText
          ∧ stored.body = resp.body
          ∧ headerGet stored.headers "sw-cache-time" = some (toString now))
    ∧ (respOk resp = false → (SWv2.apiHandler now api req (.ok resp) false).2 = api) := by
  refine ⟨?_, ?_, ?_⟩
  · by_cases h : respOk resp <;> simp [SWv2.apiHandler, h]
  · intro h
    refine ⟨{ status := resp.status, statusText := resp.statusText
            , headers := headerSet resp.headers "sw-cache-time" (toString now)
            , body := resp.body }, ?_, rfl, rfl, rfl, headerGet_headerSet_self _ _ _⟩
    simp [SWv2.apiHandler, h, SWv2.cacheApiResponse, cacheMatch_cachePut]
  · intro h
    simp [SWv2.apiHandler, h]

/-- Witness for C4 at a concrete ok API response. -/
theorem c4_api_success_cache_witness :
    ∃ stored : Response,
      cacheMatch (SWv2.apiHandler 5 [] "/api/w" (.ok demoApiResp) false).2 "/api/w"
          = some stored
        ∧ headerGet stored.headers "sw-cache-time" = some (toString (5 : Int)) := by
  obtain ⟨st, h1, _, _, _, h5⟩ :=
    (c4_api_success_cache 5 [] "/api/w" demoApiResp).2.1 (by decide)
  exact ⟨st, h1, h5⟩

/-- C5: on activation the v2 worker deletes every cache store whose name is
not one of the current version's precache/runtime/api-cache identifiers,
leaves the current version's stores intact, and claims all open clients
(`self.clients.claim()`, the `Bool` component, without waiting for a reload). -/
theorem c5_activate_cleanup (ss : CacheStorage) (n : String) :
    (SWv2.keepCurrent n = false → storeLookup (SWv2.activateHandler ss).1 n = none)
    ∧ (SWv2.keepCurrent n = true →
        storeLookup (SWv2.activateHandler ss).1 n = storeLookup ss n)
    ∧ (SWv2.activateHandler ss).2 = true := by
  refine ⟨?_, ?_, rfl⟩
  · intro h
    simp [SWv2.activateHandler, storeLookup_filter, h]
  · intro h
    simp [SWv2.activateHandler, storeLookup_filter, h]

/-- A concrete storage holding one current-version store and one stale store. -/
def demoStorageMixed : CacheStorage :=
  [("precache-v2", [("/", demoRespA)]), ("weather-app-static-v1", [("/", demoRespB)])]

/-- Witness for C5: the stale v1 store is deleted, the current precache kept. -/
theorem c5_activate_cleanup_witness :
    storeLookup (SWv2.activateHandler demoStorageMixed).1 "weather-app-static-v1" = none
    ∧ storeLookup (SWv2.activateHandler demoStorageMixed).1 "precache-v2"
        = storeLookup demoStorageMixed "precache-v2" :=
  ⟨(c5_activate_cleanup demoStorageMixed "weather-app-static-v1").1 (by decide),
   (c5_activate_cleanup demoStorageMixed "precache-v2").2.1 (by decide)⟩

/-- The error branch of the v2 API handler never mutates the API cache. -/
lemma apiHandler_error_cache_eq (now : Int) (api : CacheStore) (req : String)
    (wf : Bool) :
    (SWv2.apiHandler now api req (.error ()) wf).2 = api := by
  simp only [SWv2.apiHandler]
  cases hm : cacheMatch api req with
  | none => rfl
  | some c =>
    cases hh : headerGet c.headers "sw-cache-time" with
    | none => simp only [hh]; split <;> rfl
    | some s =>
      cases hj : jsNumber s with
      | none => simp [hh, hj]
      | some t =>
        simp only [hh, hj]
        split <;> rfl

/-- C1: on an API-class request whose network fetch throws, the v2 handler
returns the cached entry exactly when one exists and `now` minus its stored
`sw-cache-time` timestamp is at most the TTL (300000 ms); otherwise it returns
the synthesized 503 JSON error response; and the API cache itself is left
unchanged in every case (an expired entry is skipped, never deleted). -/
theorem c1_api_ttl_fallback (now : Int) (api : CacheStore) (req : String)
    (wf : Bool) :
    (SWv2.apiHandler now api req (.error ()) wf).2 = api
    ∧ (∀ c s t, cacheMatch api req = some c →
        headerGet c.headers "sw-cache-time" = some s →
        jsNumber s = some t →
        ((now - t ≤ SWv2.API_CACHE_TTL →
            (SWv2.apiHandler now api req (.error ()) wf).1 = c)
          ∧ (SWv2.API_CACHE_TTL < now - t →
            (SWv2.apiHandler now api req (.error ()) wf).1
              = SWv2.offlineApiResponse)))
    ∧ (cacheMatch api req = none →
        (SWv2.apiHandler now api req (.error ()) wf).1 = SWv2.offlineApiResponse)
    ∧ SWv2.offlineApiResponse.status = 503
    ∧ SWv2.offlineApiResponse.body
        = "\x7b\"error\":\"Network unavailable and no cached data\"\x7d" := by
  refine ⟨apiHandler_error_cache_eq now api req wf, ?_, ?_, rfl, rfl⟩
  · intro c s t hm hh hj
    constructor
    · intro hle
      simp [SWv2.apiHandler, hm, hh, hj, hle]
    · intro hgt
      have hnle : ¬(now - t ≤ SWv2.API_CACHE_TTL) := by omega
      simp [SWv2.apiHandler, hm, hh, hj, hnle]
  · intro hm
    simp [SWv2.apiHandler, hm]

/-- A concrete cached API response stamped at time 1000. -/
def demoCachedResp : Response :=
  { status := 200, statusText := "OK"
  , headers := [("Content-Type", "application/json"), ("sw-cache-time", "1000")]
  , body := "\x7b\"temp\":7\x7d" }

/-- A concrete API cache holding `demoCachedResp` under `/api/w`. -/
def demoApiCache : CacheStore := [("/api/w", demoCachedResp)]

/-- Witness for C1: at time 2000 the cached entry (stamped 1000) is fresh and
returned; at time 302000 it is expired and the synthesized 503 is returned. -/
theorem c1_api_ttl_fallback_witness :
    (SWv2.apiHandler 2000 demoApiCache "/api/w" (.error ()) false).1 = demoCachedResp
    ∧ (SWv2.apiHandler 302000 demoApiCache "/api/w" (.error ()) false).1
        = SWv2.offlineApiResponse :=
  ⟨((c1_api_ttl_fallback 2000 demoApiCache "/api/w" false).2.1 demoCachedResp
      "1000" 1000 (by decide) (by decide) (by decide)).1 (by decide),
   ((c1_api_ttl_fallback 302000 demoApiCache "/api/w" false).2.1 demoCachedResp
      "1000" 1000 (by decide) (by decide) (by decide)).2 (by decide)⟩

/-- C6: for a navigation request, the v2 handler forwards a network success
and stores a copy in the runtime cache; on network failure it returns the
precache entry for the request, else the precache entry for `/`, else the
precache entry for `/offline`, without touching the runtime cache; hence when
`/` is precached (as a successful install guarantees, last conjunct) a
navigation never errors on network failure. -/
theorem c6_navigation_fallback (runtime precache : CacheStore) (req : String)
    (resp : Response) :
    SWv2.navHandler runtime precache req (.ok resp)
        = (some resp, cachePut runtime req resp)
    ∧ (∀ c, cacheMatch precache req = some c →
        SWv2.navHandler runtime precache req (.error ()) = (some c, runtime))
    ∧ (cacheMatch precache req = none →
        ∀ c, cacheMatch precache "/" = some c →
        SWv2.navHandler runtime precache req (.error ()) = (some c, runtime))
    ∧ (cacheMatch precache req = none → cacheMatch precache "/" = none →
        SWv2.navHandler runtime precache req (.error ())
          = (cacheMatch precache "/offline", runtime))
    ∧ ((cacheMatch precache "/").isSome = true →
        ((SWv2.navHandler runtime precache req (.error ())).1).isSome = true)
    ∧ (∀ (pre : CacheStore) (net2 : String → Except Unit Response)
        (c : CacheStore), SWv2.installHandler pre net2 = .ok c →
        (cacheMatch c "/").isSome = true) := by
  refine ⟨rfl, ?_, ?_, ?_, ?_, ?_⟩
  · intro c hc
    simp [SWv2.navHandler, hc]
  · intro hreq c hc
    simp [SWv2.navHandler, hreq, hc]
  · intro hreq hroot
    simp [SWv2.navHandler, hreq, hroot]
  · intro hroot
    cases hreq : cacheMatch precache req with
    | some c => simp [SWv2.navHandler, hreq]
    | none =>
      cases hr : cacheMatch precache "/" with
      | some c => simp [SWv2.navHandler, hreq, hr]
      | none => rw [hr] at hroot; simp at hroot
  · intro pre net2 c hinst
    exact Option.isSome_iff_exists.mpr
      (Option.isSome_iff_exists.mp
        (addAll_ok_isSome pre SWv2.PRECACHE_URLS net2 c hinst "/" (by simp [SWv2.PRECACHE_URLS])))

/-- A concrete precache as produced by a successful install. -/
def demoPrecache : CacheStore := [("/", demoRespA), ("/offline", demoRespB)]

/-- Witness for C6: a navigation whose fetch fails and which has no exact
precache entry is answered with the cached `/` page. -/
theorem c6_navigation_fallback_witness :
    SWv2.navHandler [] demoPrecache "/search" (.error ()) = (some demoRespA, []) :=
  (c6_navigation_fallback [] demoPrecache "/search" demoRespA).2.2.1
    (by decide) demoRespA (by decide)

/-- A concrete storage for the v1 worker holding one stale static-cache entry. -/
def demoV1Storage : CacheStorage :=
  [(SWv1.STATIC_CACHE_NAME, [("/static/css/styles.css", demoRespA)])]

/-- Counterexample to C7 as stated: the v1 worker handles static assets
cache-first, not network-first.  With `/static/css/styles.css` cached as
`demoRespA` and a network that would deliver a different response `demoRespB`,
`cacheFirstStrategy` answers from the cache, so the network response is not
the one forwarded to the caller. -/
theorem c7_static_network_first_counterexample :
    (SWv1.cacheFirstStrategy demoV1Storage "/static/css/styles.css" "style"
        (.ok demoRespB)).1 = .ok (some demoRespA)
    ∧ demoRespA ≠ demoRespB := by
  refine ⟨?_, by decide⟩
  rfl

/-- C7 amended: in the v2 worker (`static/js/sw.js`) static-asset requests are
network-first: the network outcome decides the result; an ok success is
forwarded and a copy stored in the runtime cache (a non-ok success is
forwarded without caching); on failure the matching runtime entry is returned
if present, else the failure is propagated.  (The v1 worker instead serves
static assets cache-first — see the counterexample.) -/
theorem c7_static_network_first (runtime : CacheStore) (req : String)
    (resp : Response) :
    (SWv2.staticHandler runtime req (.ok resp)).1 = .ok resp
    ∧ (respOk resp = true →
        (SWv2.staticHandler runtime req (.ok resp)).2 = cachePut runtime req resp)
    ∧ (respOk resp = false →
        (SWv2.staticHandler runtime req (.ok resp)).2 = runtime)
    ∧ (∀ c, cacheMatch runtime req = some c →
        SWv2.staticHandler runtime req (.error ()) = (.ok c, runtime))
    ∧ (cacheMatch runtime req = none →
        SWv2.staticHandler runtime req (.error ()) = (.error (), runtime)) := by
  refine ⟨rfl, ?_, ?_, ?_, ?_⟩
  · intro h
    simp [SWv2.staticHandler, h]
  · intro h
    simp [SWv2.staticHandler, h]
  · intro c hc
    simp [SWv2.staticHandler, hc]
  · intro hc
    simp [SWv2.staticHandler, hc]

/-- Witness for amended C7: a cached runtime entry is served on network
failure, and an empty runtime cache propagates the failure. -/
theorem c7_static_network_first_witness :
    SWv2.staticHandler [("/static/js/main.js", demoRespA)] "/static/js/main.js"
        (.error ()) = (.ok demoRespA, [("/static/js/main.js", demoRespA)])
    ∧ SWv2.staticHandler [] "/static/js/main.js" (.error ()) = (.error (), []) :=
  ⟨(c7_static_network_first [("/static/js/main.js", demoRespA)]
      "/static/js/main.js" demoRespA).2.2.2.1 demoRespA (by decide),
   (c7_static_network_first [] "/static/js/main.js" demoRespA).2.2.2.2 (by decide)⟩

/-- A network where exactly one precache asset (`/offline`) fails to fetch. -/
def demoFailOfflineNet : String → Except Unit Response :=
  fun u => if u == "/offline" then .error () else .ok demoRespA

/-- Counterexample to C2 as stated: in the v2 worker the install handler has
no `.catch` around `cache.addAll`, so the failure of the single non-critical
asset `/offline` (all other assets fetch fine) makes installation fail. -/
theorem c2_install_counterexample :
    SWv2.installHandler [] demoFailOfflineNet = .error ()
    ∧ demoFailOfflineNet "/" = .ok demoRespA
    ∧ demoFailOfflineNet "/static/css/styles.css" = .ok demoRespA := by
  refine ⟨?_, rfl, rfl⟩
  rfl

/-- C2 amended: only the v1 worker installs best-effort.  Its install handler
never fails; when the (atomic) `addAll` rejects, the rejection is caught and
the precache is left as it was; and when every asset fetch succeeds, the
precache ends up holding an entry for each asset of the fixed list.  (In the
v2 worker a single failed asset fails installation — see the
counterexample.) -/
theorem c2_install_best_effort (pre : CacheStore)
    (net : String → Except Unit Response) :
    (∃ c, SWv1.installHandler pre net = .ok c)
    ∧ ((∃ e, addAll pre SWv1.STATIC_ASSETS net = .error e) →
        SWv1.installHandler pre net = .ok pre)
    ∧ ((∀ a ∈ SWv1.STATIC_ASSETS, ∃ r, net a = .ok r) →
        ∃ c, SWv1.installHandler pre net = .ok c
          ∧ ∀ u ∈ SWv1.STATIC_ASSETS, (cacheMatch c u).isSome = true) := by
  refine ⟨?_, ?_, ?_⟩
  · unfold SWv1.installHandler
    cases h : addAll pre SWv1.STATIC_ASSETS net with
    | ok c => exact ⟨c, rfl⟩
    | error e => exact ⟨pre, rfl⟩
  · intro ⟨e, he⟩
    unfold SWv1.installHandler
    rw [he]
  · intro hall
    obtain ⟨rs, hrs⟩ := fetchAll_ok_of_all_ok net SWv1.STATIC_ASSETS hall
    have haddAll : addAll pre SWv1.STATIC_ASSETS net
        = .ok (rs.foldl (fun acc p => cachePut acc p.1 p.2) pre) := by
      unfold addAll
      rw [hrs]
    refine ⟨rs.foldl (fun acc p => cachePut acc p.1 p.2) pre, ?_, ?_⟩
    · unfold SWv1.installHandler
      rw [haddAll]
    · exact addAll_ok_isSome pre SWv1.STATIC_ASSETS net _ haddAll

/-- Witness for amended C2: with the same network that fails `/offline` (a URL
the v1 worker does not precache, so every v1 asset fetch succeeds), the v1
install completes and caches all six assets; and with a network failing
`/static/css/styles.css`, the v1 install still completes, leaving the store
untouched. -/
theorem c2_install_best_effort_witness :
    (∃ c, SWv1.installHandler [] demoFailOfflineNet = .ok c
      ∧ ∀ u ∈ SWv1.STATIC_ASSETS, (cacheMatch c u).isSome = true)
    ∧ SWv1.installHandler []
        (fun u => if u == "/static/css/styles.css" then .error () else .ok demoRespA)
        = .ok [] :=
  ⟨(c2_install_best_effort [] demoFailOfflineNet).2.2
      (by intro a ha; fin_cases ha <;> exact ⟨demoRespA, rfl⟩),
   (c2_install_best_effort []
      (fun u => if u == "/static/css/styles.css" then .error () else .ok demoRespA)).2.1
      ⟨(), by rfl⟩⟩

/-- A concrete runtime cache already holding 50 distinct entries. -/
def demoBigRuntime : CacheStore :=
  (List.range 50).map (fun i => (String.mk (List.replicate (i + 1) 'a'), demoRespA))

/-- Counterexample to C3 as stated: the v2 worker writes to its runtime cache
with no size cleanup anywhere.  Starting from a runtime cache with 50 entries,
a successful cache-writing static fetch leaves 51 entries — the count stays
above the configured bound of 50. -/
theorem c3_runtime_bound_counterexample :
    demoBigRuntime.length = 50
    ∧ ((SWv2.staticHandler demoBigRuntime "/static/js/new.js"
        (.ok demoRespA)).2).length = 51
    ∧ SWv1.maxEntries
        < ((SWv2.staticHandler demoBigRuntime "/static/js/new.js"
            (.ok demoRespA)).2).length := by
  refine ⟨by decide, ?_, ?_⟩ <;> decide

/-- C3 amended: only the v1 worker enforces the bound, and only on the path
through `networkFirstStrategy` (its API branch): after a successful status-200
fetch that writes the runtime cache, `cleanupRuntimeCache` deletes the oldest
entries in insertion order until at most 50 remain, so the resulting count
never exceeds 50.  (The v2 worker's runtime cache is unbounded — see the
counterexample.) -/
theorem c3_runtime_bound (runtime : CacheStore) (req : String) (resp : Response)
    (h : resp.status = 200) :
    ((SWv1.networkFirstStrategy runtime req (.ok resp)).2).length ≤ SWv1.maxEntries
    ∧ (SWv1.networkFirstStrategy runtime req (.ok resp)).2
        = (cachePut runtime req resp).drop
            ((cachePut runtime req resp).length - SWv1.maxEntries) := by
  have hs : (resp.status == 200) = true := by simp [h]
  constructor
  · simp [SWv1.networkFirstStrategy, hs, cleanupRuntimeCache_eq_drop]
    omega
  · simp [SWv1.networkFirstStrategy, hs, cleanupRuntimeCache_eq_drop]

/-- Witness for amended C3: writing a 51st entry through the v1 strategy
leaves the runtime cache at the bound. -/
theorem c3_runtime_bound_witness :
    ((SWv1.networkFirstStrategy demoBigRuntime "/api/w" (.ok demoApiResp)).2).length
      ≤ SWv1.maxEntries :=
  (c3_runtime_bound demoBigRuntime "/api/w" demoApiResp (by decide)).1
